import Mathlib

/-!
Shallow embedding of the fit/refit controller layer of
`scipy/interpolate/fitpack2.py`: the univariate spline classes
(`UnivariateSpline`, `InterpolatedUnivariateSpline`, `LSQUnivariateSpline`)
and the bivariate spline classes (`SmoothBivariateSpline`,
`LSQBivariateSpline`, `RectBivariateSpline`, `RectSphereBivariateSpline`).

The external DIERCKX solver routines (`dfitpack.fpcurf0`, `fpcurf1`,
`fpcurfm1`, `surfit_smth`, `surfit_lsq`, `regrid_smth`,
`regrid_smth_spher`) and the evaluator (`fitpack.splev`) are out of scope
and are modelled as function parameters; everything the Python layer itself
computes — validation, status interpretation, storage management, warning
emission — is translated directly from the source.  Float values are
modelled as integers: the controller layer only compares them and forms
integer-coefficient combinations, so its control flow is preserved, and
every concrete scenario scales to integer data.  Every Python `raise`
becomes an `Except.error`.
-/

set_option autoImplicit false

namespace Fitpack2

/-- Outcome of one controller operation: the produced value (or the message
of the raised exception), the warnings emitted during the operation, and the
number of calls made to external solver routines while it ran. -/
structure OpResult (α : Type) where
  res : Except String α
  warns : List String
  solverCalls : Nat

/-- Whether an `Except` result produced a value. -/
def isOkB {α : Type} : Except String α → Bool
  | .ok _ => true
  | .error _ => false

/-- numpy `np.resize l sz`: a list of length `sz` filled by cycling `l`
(zeros when `l` is empty). -/
def npResize {α : Type} [Inhabited α] (l : List α) (sz : Nat) : List α :=
  (List.range sz).map fun i => l.getD (i % l.length) default

/-- numpy `all(diff(l) > 0)`: all consecutive differences positive. -/
def strictlyIncB (l : List Int) : Bool :=
  (List.zipWith (fun a b => decide (b - a > 0)) l l.tail).all id

/-- numpy `l.min()` (head-seeded fold; the empty case is unreachable in the
modelled flows). -/
def npMin (l : List Int) : Int := l.foldl min (l.headD 0)

/-- numpy `l.max()`. -/
def npMax (l : List Int) : Int := l.foldl max (l.headD 0)

/-- The test `l.min() == l[0] and l.max() == l[-1]` from
`RectBivariateSpline.__init__`. -/
def minMaxOkB (l : List Int) : Bool :=
  decide (npMin l = l.headD 0) && decide (npMax l = l.getLastD 0)

/-- The fallback diagnostic `'ier=%s' % ier`. -/
def ierDefaultMsg (ier : Int) : String :=
  let pre := "ier="
  pre ++ toString ier

/-- Python `table.get(ier, 'ier=%s' % ier)` on a message table. -/
def msgGet (table : List (Int × String)) (ier : Int) : String :=
  match table.find? (fun p => p.fst == ier) with
  | some p => p.snd
  | none => ierDefaultMsg ier

/-- Python `%`-formatting of a single `%i` slot. -/
def pyFormatI (tmpl : String) (d : Int) : String :=
  let pat := "%i"
  tmpl.replace pat (toString d)

/-- `_curfit_messages[1]`. -/
def msgCurfit1 : String :=
  "\nThe required storage space exceeds the available storage space, as\nspecified by the parameter nest: nest too small. If nest is already\nlarge (say nest > m/2), it may also indicate that s is too small.\nThe approximation returned is the weighted least-squares spline\naccording to the knots t[0],t[1],...,t[n-1]. (n=nest) the parameter fp\ngives the corresponding weighted sum of squared residuals (fp>s).\n"

/-- `_curfit_messages[2]`. -/
def msgCurfit2 : String :=
  "\nA theoretically impossible result was found during the iteration\nproces for finding a smoothing spline with fp = s: s too small.\nThere is an approximation returned but the corresponding weighted sum\nof squared residuals does not satisfy the condition abs(fp-s)/s < tol."

/-- `_curfit_messages[3]`. -/
def msgCurfit3 : String :=
  "\nThe maximal number of iterations maxit (set to 20 by the program)\nallowed for finding a smoothing spline with fp=s has been reached: s\ntoo small.\nThere is an approximation returned but the corresponding weighted sum\nof squared residuals does not satisfy the condition abs(fp-s)/s < tol."

/-- `_curfit_messages[10]`. -/
def msgCurfit10 : String :=
  "\nError on entry, no approximation returned. The following conditions\nmust hold:\nxb<=x[0]<x[1]<...<x[m-1]<=xe, w[i]>0, i=0..m-1\nif iopt=-1:\n  xb<t[k+1]<t[k+2]<...<t[n-k-2]<xe"

/-- The `_curfit_messages` table (keys 1, 2, 3, 10). -/
def curfitMessages : List (Int × String) :=
  [(1, msgCurfit1), (2, msgCurfit2), (3, msgCurfit3), (10, msgCurfit10)]

/-- The 14-slot solver state tuple
`_data == x,y,w,xb,xe,k,s,n,t,c,fp,fpint,nrdata,ier`.  `fpint` and `nrdata`
are optional because `LSQUnivariateSpline.__init__` stores `None` there. -/
structure CurfitData where
  x : List Int
  y : List Int
  w : List Int
  xb : Int
  xe : Int
  k : Nat
  s : Int
  n : Nat
  t : List Int
  c : List Int
  fp : Int
  fpint : Option (List Int)
  nrdata : Option (List Int)
  ier : Int
deriving DecidableEq, Repr, Inhabited

/-- The concrete Python class a univariate spline object carries at runtime
(`self.__class__`); `unknownSubclass` stands for any user subclass, which
`_set_class` leaves untouched (cf. source comment about gh-731). -/
inductive SplineClass where
  | univariate
  | interpolated
  | lsq
  | unknownSubclass
deriving DecidableEq, Repr, Inhabited

/-- A univariate spline object: its runtime class, the `_spline_class`
attribute, the cached `_eval_args` triple and the `_data` tuple. -/
structure SplineObj where
  cls : SplineClass
  splineClassAttr : Option SplineClass
  evalT : List Int
  evalC : List Int
  evalK : Nat
  dat : CurfitData
deriving DecidableEq, Repr, Inhabited

/-- `UnivariateSpline._set_class`: records `_spline_class` and replaces the
runtime class unless the object is an unknown subclass. -/
def set_class (self : SplineObj) (c : SplineClass) : SplineObj :=
  let self := { self with splineClassAttr := some c }
  match self.cls with
  | .unknownSubclass => self
  | _ => { self with cls := c }

/-- `UnivariateSpline._reset_class`: installs `_eval_args = t[:n], c[:n], k`,
reclassifies the object according to `ier`, and returns the warning it
emits (if any).  Note the method contains no `raise`: every status falls
through to either silence or a `warnings.warn`. -/
def reset_class (self : SplineObj) : SplineObj × List String :=
  let d := self.dat
  let base := { self with evalT := d.t.take d.n, evalC := d.c.take d.n, evalK := d.k }
  if d.ier = 0 then (base, [])
  else if d.ier = -1 then (set_class base .interpolated, [])
  else if d.ier = -2 then (set_class base .lsq, [])
  else
    let b2 := if d.ier = 1 then set_class base .lsq else base
    (b2, [msgGet curfitMessages d.ier])

/-- Message of the `ValueError` in `_reset_nest`. -/
def msgNestIncrease : String := "`nest` can only be increased"

/-- Stand-in for the `TypeError` Python would raise if `np.resize` were
applied to the `None` stored in an LSQ spline's `fpint`/`nrdata` slots
(unreachable in the source flows, which never regrow an LSQ spline). -/
def msgResizeNone : String := "np.resize applied to None"

/-- `UnivariateSpline._reset_nest`.  Faithful to the source, which reads
`n = data[10]` — by the documented tuple layout that slot is the residual
`fp`, not the knot count `data[7]` — and compares that value against the
requested `nest`. -/
def reset_nest (fpcurf1 : CurfitData → CurfitData) (data : CurfitData)
    (nestO : Option Nat) : Except String CurfitData :=
  let n := data.fp
  let nestE : Except String Nat :=
    match nestO with
    | none => .ok (data.x.length + data.k + 1)
    | some nest => if ¬ (n ≤ (nest : Int)) then .error msgNestIncrease else .ok nest
  match nestE with
  | .error e => .error e
  | .ok nest =>
    match data.fpint, data.nrdata with
    | some fpint, some nrd =>
        .ok (fpcurf1 { data with
          t := npResize data.t nest, c := npResize data.c nest,
          fpint := some (npResize fpint nest), nrdata := some (npResize nrd nest) })
    | _, _ => .error msgResizeNone

/-- A fresh `UnivariateSpline` object right after `self._data` is stored,
before `_reset_class` runs. -/
def mkUnivariateObj (d : CurfitData) : SplineObj :=
  { cls := .univariate, splineClassAttr := none,
    evalT := [], evalC := [], evalK := 0, dat := d }

/-- A fresh `LSQUnivariateSpline` object right after `self._data` is stored. -/
def mkLsqObj (d : CurfitData) : SplineObj :=
  { cls := .lsq, splineClassAttr := none,
    evalT := [], evalC := [], evalK := 0, dat := d }

/-- `UnivariateSpline.__init__` after the external `fpcurf0` call returned
`data`: a status-1 result triggers the one-shot `_reset_nest` regrow-and-
retry, then `_reset_class` interprets the final status.  `solverCalls`
counts the additional `fpcurf1` invocations. -/
def univariateSplineInit (fpcurf1 : CurfitData → CurfitData) (data : CurfitData) :
    OpResult SplineObj :=
  if data.ier = 1 then
    match reset_nest fpcurf1 data none with
    | .error e => ⟨.error e, [], 0⟩
    | .ok d2 =>
        let p := reset_class (mkUnivariateObj d2)
        ⟨.ok p.1, p.2, 1⟩
  else
    let p := reset_class (mkUnivariateObj data)
    ⟨.ok p.1, p.2, 0⟩

/-- The warm-start solver arguments of `set_smoothing_factor`:
`args = data[:6] + (s,) + data[7:]` keeps the previous knot layout
(`n`, `t`, `c`, …) and replaces only the smoothing factor. -/
def warmStartData (d : CurfitData) (s : Int) : CurfitData := { d with s := s }

/-- Warning emitted when refitting a fixed-knot LSQ spline (two adjacent
string literals in the source, hence the missing space). -/
def msgLsqRefit : String :=
  "smoothing factor unchanged forLSQ spline with fixed knots"

/-- `UnivariateSpline.set_smoothing_factor`: a fixed-knot LSQ spline
(`data[6] == -1`) returns early with a warning and no solver call;
otherwise the solver is re-invoked with the prior knots as a warm start,
with the same one-shot status-1 regrow as `__init__`, and the object is
re-classified from the fresh data. -/
def set_smoothing_factor (fpcurf1 : CurfitData → CurfitData) (self : SplineObj)
    (s : Int) : OpResult SplineObj :=
  if self.dat.s = -1 then ⟨.ok self, [msgLsqRefit], 0⟩
  else
    let d1 := fpcurf1 (warmStartData self.dat s)
    if d1.ier = 1 then
      match reset_nest fpcurf1 d1 none with
      | .error e => ⟨.error e, [], 1⟩
      | .ok d2 =>
          let p := reset_class { self with dat := d2 }
          ⟨.ok p.1, p.2, 2⟩
    else
      let p := reset_class { self with dat := d1 }
      ⟨.ok p.1, p.2, 1⟩

/-- `set_smoothing_factor` as the caller observes it: the Python method
returns `None` and assigns `self._data` / `self.__class__` on the object
itself, so the caller's reference sees the update.  This is modelled with a
store of objects updated at index `i` (on the early-return path the object
is written back unchanged, matching the absence of any assignment). -/
def refitAt (fpcurf1 : CurfitData → CurfitData) (store : List SplineObj)
    (i : Nat) (s : Int) : OpResult (List SplineObj) :=
  let r := set_smoothing_factor fpcurf1 (store.getD i default) s
  match r.res with
  | .error e => ⟨.error e, r.warns, r.solverCalls⟩
  | .ok o => ⟨.ok (store.set i o), r.warns, r.solverCalls⟩

/-- `UnivariateSpline.__call__`: an empty query returns an empty array
before the external evaluator `fitpack.splev` is consulted; the pair's
second component counts evaluator calls. -/
def splineCall (splev : (List Int × List Int × Nat) → List Int → Nat → List Int)
    (self : SplineObj) (xs : List Int) (nu : Nat) : List Int × Nat :=
  if xs.length = 0 then ([], 0)
  else (splev (self.evalT, self.evalC, self.evalK) xs nu, 1)

/-- The pre-solver test of `LSQUnivariateSpline.__init__`:
`alltrue(t[k+1:n-k] - t[k:n-k-1] > 0)` on the padded knot vector, i.e.
strict increase across the window `t[k..n-k-1]`. -/
def swCheckB (t : List Int) (k : Nat) : Bool :=
  let n := t.length
  (List.zipWith (fun a b => decide (a - b > 0))
    ((t.drop (k+1)).take (n - k - (k+1)))
    ((t.drop k).take (n - k - 1 - k))).all id

/-- Message of the `ValueError` raised by the pre-solver knot check. -/
def msgSWViolation : String :=
  "Interior knots t must satisfy Schoenberg-Whitney conditions"

/-- The padded knot vector of `LSQUnivariateSpline.__init__`:
`t = concatenate(([xb]*(k+1), t, [xe]*(k+1)))` with the boundary defaulting
to `x[0]` / `x[-1]`. -/
def paddedKnots (x tint : List Int) (xbO xeO : Option Int) (k : Nat) : List Int :=
  List.replicate (k+1) (xbO.getD (x.headD 0)) ++ tint ++
    List.replicate (k+1) (xeO.getD (x.getLastD 0))

/-- `LSQUnivariateSpline.__init__`: resolve the boundary, pad the interior
knots with `k+1` copies of each boundary value, run the knot check, then
call the external `fpcurfm1` and store its tuple with `fpint`/`nrdata`
replaced by `None`. -/
def lsqUnivariateSplineInit
    (fpcurfm1 : List Int → List Int → Nat → List Int → Option (List Int) → Int → Int → CurfitData)
    (x y tint : List Int) (w : Option (List Int)) (xbO xeO : Option Int) (k : Nat) :
    OpResult SplineObj :=
  if ¬ swCheckB (paddedKnots x tint xbO xeO k) k then ⟨.error msgSWViolation, [], 0⟩
  else
    let d0 := fpcurfm1 x y k (paddedKnots x tint xbO xeO k) w
      (xbO.getD (x.headD 0)) (xeO.getD (x.getLastD 0))
    let p := reset_class (mkLsqObj { d0 with fpint := none, nrdata := none })
    ⟨.ok p.1, p.2, 1⟩

/-- The Schoenberg-Whitney condition exactly as the specification words it
(for comparison with the source's check): every interior knot span
`t[i+1]..t[i+k+1]` must admit data support, i.e. contain a data abscissa
strictly inside. -/
def specSchoenbergWhitneyB (x t : List Int) (k : Nat) : Bool :=
  (List.range t.length).all fun i =>
    if i + k + 1 < t.length then
      (List.range x.length).any fun j =>
        decide (t.getD (i+1) 0 < x.getD j 0) && decide (x.getD j 0 < t.getD (i+k+1) 0)
    else true

/-- `_surfit_messages[1]`. -/
def msgSurfit1 : String :=
  "\nThe required storage space exceeds the available storage space: nxest\nor nyest too small, or s too small.\nThe weighted least-squares spline corresponds to the current set of\nknots."

/-- `_surfit_messages[2]`. -/
def msgSurfit2 : String :=
  "\nA theoretically impossible result was found during the iteration\nprocess for finding a smoothing spline with fp = s: s too small or\nbadly chosen eps.\nWeighted sum of squared residuals does not satisfy abs(fp-s)/s < tol."

/-- `_surfit_messages[3]`. -/
def msgSurfit3 : String :=
  "\nthe maximal number of iterations maxit (set to 20 by the program)\nallowed for finding a smoothing spline with fp=s has been reached:\ns too small.\nWeighted sum of squared residuals does not satisfy abs(fp-s)/s < tol."

/-- `_surfit_messages[4]`. -/
def msgSurfit4 : String :=
  "\nNo more knots can be added because the number of b-spline coefficients\n(nx-kx-1)*(ny-ky-1) already exceeds the number of data points m:\neither s or m too small.\nThe weighted least-squares spline corresponds to the current set of\nknots."

/-- `_surfit_messages[5]`. -/
def msgSurfit5 : String :=
  "\nNo more knots can be added because the additional knot would (quasi)\ncoincide with an old one: s too small or too large a weight to an\ninaccurate data point.\nThe weighted least-squares spline corresponds to the current set of\nknots."

/-- `_surfit_messages[10]`. -/
def msgSurfit10 : String :=
  "\nError on entry, no approximation returned. The following conditions\nmust hold:\nxb<=x[i]<=xe, yb<=y[i]<=ye, w[i]>0, i=0..m-1\nIf iopt==-1, then\n  xb<tx[kx+1]<tx[kx+2]<...<tx[nx-kx-2]<xe\n  yb<ty[ky+1]<ty[ky+2]<...<ty[ny-ky-2]<ye"

/-- `_surfit_messages[-3]`, the rank-deficiency template with its `%i`
deficiency slot. -/
def msgSurfitRankDef : String :=
  "\nThe coefficients of the spline returned have been computed as the\nminimal norm least-squares solution of a (numerically) rank deficient\nsystem (deficiency=%i). If deficiency is large, the results may be\ninaccurate. Deficiency may strongly depend on the value of eps."

/-- The `_surfit_messages` table (keys 1, 2, 3, 4, 5, 10, -3). -/
def surfitMessages : List (Int × String) :=
  [(1, msgSurfit1), (2, msgSurfit2), (3, msgSurfit3), (4, msgSurfit4),
   (5, msgSurfit5), (10, msgSurfit10), (-3, msgSurfitRankDef)]

/-- `_spfit_messages[10]`, the spherical-grid entry-error text. -/
def msgSpfit10 : String :=
  "\nERROR: on entry, the input data are controlled on validity\n       the following restrictions must be satisfied.\n          -1<=iopt(1)<=1, 0<=iopt(2)<=1, 0<=iopt(3)<=1,\n          -1<=ider(1)<=1, 0<=ider(2)<=1, ider(2)=0 if iopt(2)=0.\n          -1<=ider(3)<=1, 0<=ider(4)<=1, ider(4)=0 if iopt(3)=0.\n          mu >= mumin (see above), mv >= 4, nuest >=8, nvest >= 8,\n          kwrk>=5+mu+mv+nuest+nvest,\n          lwrk >= 12+nuest*(mv+nvest+3)+nvest*24+4*mu+8*mv+max(nuest,mv+nvest)\n          0< u(i-1)<u(i)< pi,i=2,..,mu,\n          -pi<=v(1)< pi, v(1)<v(i-1)<v(i)<v(1)+2*pi, i=3,...,mv\n          if iopt(1)=-1: 8<=nu<=min(nuest,mu+6+iopt(2)+iopt(3))\n                         0<tu(5)<tu(6)<...<tu(nu-4)< pi\n                         8<=nv<=min(nvest,mv+7)\n                         v(1)<tv(5)<tv(6)<...<tv(nv-4)<v(1)+2*pi\n                         the schoenberg-whitney conditions, i.e. there must be\n                         subset of grid co-ordinates uu(p) and vv(q) such that\n                            tu(p) < uu(p) < tu(p+4) ,p=1,...,nu-4\n                            (iopt(2)=1 and iopt(3)=1 also count for a uu-value\n                            tv(q) < vv(q) < tv(q+4) ,q=1,...,nv-4\n                            (vv(q) is either a value v(j) or v(j)+2*pi)\n          if iopt(1)>=0: s>=0\n          if s=0: nuest>=mu+6+iopt(2)+iopt(3), nvest>=mv+7\n       if one of these conditions is found to be violated,control is\n       immediately repassed to the calling program. in that case there is no\n       approximation returned."

/-- `_spfit_messages = _surfit_messages.copy()` with key 10 replaced. -/
def spfitMessages : List (Int × String) :=
  surfitMessages.map fun p => if p.fst == 10 then (10, msgSpfit10) else p

/-- Output tuple of the scattered / grid surface solvers:
`(nx, tx, ny, ty, c, fp, ier)`. -/
structure SurfitOut where
  nx : Nat
  tx : List Int
  ny : Nat
  ty : List Int
  c : List Int
  fp : Int
  ier : Int
deriving DecidableEq, Repr, Inhabited

/-- A bivariate spline object: residual `fp`, the `tck` triple and the
degrees. -/
structure BivObj where
  fp : Int
  tckX : List Int
  tckY : List Int
  tckC : List Int
  degX : Nat
  degY : Nat
deriving DecidableEq, Repr, Inhabited

/-- `SmoothBivariateSpline.__init__` after the external `surfit_smth` call
returned `out`: statuses 0, -1, -2 are silent, every other status is a
warning looked up in `_surfit_messages`; the object is built either way. -/
def smoothBivariateInit (out : SurfitOut) (kx ky : Nat) : OpResult BivObj :=
  let ws := if out.ier ∈ ([0, -1, -2] : List Int) then []
            else [msgGet surfitMessages out.ier]
  ⟨.ok { fp := out.fp, tckX := out.tx.take out.nx, tckY := out.ty.take out.ny,
         tckC := out.c.take (((out.nx : Int) - kx - 1) * ((out.ny : Int) - ky - 1)).toNat,
         degX := kx, degY := ky }, ws, 1⟩

/-- Output tuple of `surfit_lsq`: `(tx, ty, c, fp, ier)`. -/
structure LsqOut where
  tx : List Int
  ty : List Int
  c : List Int
  fp : Int
  ier : Int
deriving DecidableEq, Repr, Inhabited

/-- The per-axis knot grid of `LSQBivariateSpline.__init__`: a zero array of
length `2*k + 2 + len(t)` whose window `[k+1 : n-k-1]` holds the interior
knots. -/
def lsqPadded (t : List Int) (k : Nat) : List Int :=
  List.replicate (k+1) (0:Int) ++ t ++ List.replicate (k+1) (0:Int)

/-- The deficiency computed for `ier < -2`:
`(nx-kx-1)*(ny-ky-1) + ier` with `nx = 2*kx+2+len(tx)`. -/
def lsqDeficiency (tx ty : List Int) (kx ky : Nat) (ier : Int) : Int :=
  (((2*kx + 2 + tx.length : Nat) : Int) - kx - 1) *
    (((2*ky + 2 + ty.length : Nat) : Int) - ky - 1) + ier

/-- The `surfit_lsq` call discipline of `LSQBivariateSpline.__init__`:
first call with `lwrk2 = 1`; when the status exceeds 10 (the workspace
sentinel carrying the suggested size) retry exactly once with `lwrk2 = ier`.
Returns the effective output and the number of solver calls. -/
def lsqSurfitResult (surfit_lsq : List Int → List Int → Int → LsqOut)
    (tx1 ty1 : List Int) : LsqOut × Nat :=
  let r1 := surfit_lsq tx1 ty1 1
  if r1.ier > 10 then (surfit_lsq tx1 ty1 r1.ier, 2) else (r1, 1)

/-- `LSQBivariateSpline.__init__`: pad the knot grids, run the (at most
twice called) solver, then interpret the status — 0, -1, -2 silent,
`ier < -2` warns with the deficiency-formatted rank message, anything else
warns with the table lookup.  The object is built either way. -/
def lsqBivariateInit (surfit_lsq : List Int → List Int → Int → LsqOut)
    (tx ty : List Int) (kx ky : Nat) : OpResult BivObj :=
  let pr := lsqSurfitResult surfit_lsq (lsqPadded tx kx) (lsqPadded ty ky)
  let r := pr.1
  let ws :=
    if r.ier ∈ ([0, -1, -2] : List Int) then []
    else if r.ier < -2 then
      [pyFormatI (msgGet surfitMessages (-3)) (lsqDeficiency tx ty kx ky r.ier)]
    else [msgGet surfitMessages r.ier]
  ⟨.ok { fp := r.fp, tckX := r.tx, tckY := r.ty, tckC := r.c,
         degX := kx, degY := ky }, ws, pr.2⟩

/-- Message of the first `TypeError` in `RectBivariateSpline.__init__`. -/
def msgXInc : String := "x must be strictly increasing"

/-- Second grid-axis monotonicity message. -/
def msgYInc : String := "y must be strictly increasing"

/-- Message of the `x.min()`/`x.max()` endpoint check. -/
def msgXAsc : String := "x must be strictly ascending"

/-- Message of the `y.min()`/`y.max()` endpoint check. -/
def msgYAsc : String := "y must be strictly ascending"

/-- Message of the `z.shape[0]` check. -/
def msgZXDim : String :=
  "x dimension of z must have same number of elements as x"

/-- Message of the `z.shape[1]` check. -/
def msgZYDim : String :=
  "y dimension of z must have same number of elements as y"

/-- `RectBivariateSpline.__init__`: the six validations run before the
external `regrid_smth` call; afterwards any status outside `[0, -1, -2]`
raises `ValueError` with the table message — no object is built. -/
def rectBivariateInit (regrid_smth : List Int → List Int → List Int → Nat → Nat → Int → SurfitOut)
    (x y : List Int) (z : List (List Int)) (kx ky : Nat) (s : Int) : OpResult BivObj :=
  if ¬ strictlyIncB x then ⟨.error msgXInc, [], 0⟩
  else if ¬ strictlyIncB y then ⟨.error msgYInc, [], 0⟩
  else if ¬ minMaxOkB x then ⟨.error msgXAsc, [], 0⟩
  else if ¬ minMaxOkB y then ⟨.error msgYAsc, [], 0⟩
  else if ¬ (x.length = z.length) then ⟨.error msgZXDim, [], 0⟩
  else if ¬ (y.length = (z.headD []).length) then ⟨.error msgZYDim, [], 0⟩
  else
    let out := regrid_smth x y z.flatten kx ky s
    if out.ier ∈ ([0, -1, -2] : List Int) then
      ⟨.ok { fp := out.fp, tckX := out.tx.take out.nx, tckY := out.ty.take out.ny,
             tckC := out.c.take (((out.nx : Int) - kx - 1) * ((out.ny : Int) - ky - 1)).toNat,
             degX := kx, degY := ky }, [], 1⟩
    else ⟨.error (msgGet surfitMessages out.ier), [], 1⟩

/-- Output tuple of `regrid_smth_spher`: `(nu, tu, nv, tv, c, fp, ier)`. -/
structure SpherOut where
  nu : Nat
  tu : List Int
  nv : Nat
  tv : List Int
  c : List Int
  fp : Int
  ier : Int
deriving DecidableEq, Repr, Inhabited

/-- A pole option that is either a single value (broadcast to both poles)
or an explicit (north, south) pair. -/
inductive BoolOrPair where
  | single : Bool → BoolOrPair
  | pair : Bool → Bool → BoolOrPair
deriving DecidableEq, Repr

/-- The `isinstance(v, bool)` broadcast of `RectSphereBivariateSpline`. -/
def broadcastBool : BoolOrPair → Bool × Bool
  | .single b => (b, b)
  | .pair a b => (a, b)

/-- The `pole_values` argument: `None`, a single value, or a pair of
optional values. -/
inductive PoleValues where
  | noneV : PoleValues
  | singleV : Int → PoleValues
  | pairV : Option Int → Option Int → PoleValues
deriving DecidableEq, Repr

/-- Broadcast of `pole_values`. -/
def broadcastPoleValues : PoleValues → Option Int × Option Int
  | .noneV => (none, none)
  | .singleV q => (some q, some q)
  | .pairV a b => (a, b)

/-- numpy conversion of a Python bool stored into an int array. -/
def boolToZ (b : Bool) : Int := if b then 1 else 0

/-- Message of the `u` monotonicity check. -/
def msgUInc : String := "u must be strictly increasing"

/-- Message of the `v` monotonicity check. -/
def msgVInc : String := "v must be strictly increasing"

/-- Message of the `r.shape[0]` check. -/
def msgRUDim : String :=
  "u dimension of r must have same number of elements as u"

/-- Message of the `r.shape[1]` check. -/
def msgRVDim : String :=
  "v dimension of r must have same number of elements as v"

/-- Message of the pole-consistency check. -/
def msgPoleFlat : String :=
  "if pole_continuity is False, so must be pole_flat"

/-- `RectSphereBivariateSpline.__init__`: broadcast the pole options,
encode them into the `iopt`/`ider` integer vectors, run the validations
(axis monotonicity, shape, then pole consistency — south pole first, as in
the source), call the external `regrid_smth_spher`, and treat any status
outside `[0, -1, -2]` as a fatal `ValueError` keyed into `_spfit_messages`. -/
def rectSphereInit
    (regrid_smth_spher : Int × Int × Int → Int × Int × Int × Int →
      List Int → List Int → List Int → Option Int → Option Int → Int → SpherOut)
    (u v : List Int) (r : List (List Int)) (s : Int)
    (pole_continuity : BoolOrPair) (pole_values : PoleValues)
    (pole_exact : BoolOrPair) (pole_flat : BoolOrPair) : OpResult BivObj :=
  let pv := broadcastPoleValues pole_values
  let pc := broadcastBool pole_continuity
  let pe := broadcastBool pole_exact
  let pf := broadcastBool pole_flat
  let iopt : Int × Int × Int := (0, boolToZ pc.1, boolToZ pc.2)
  let ider0 : Int := match pv.1 with | none => -1 | some _ => boolToZ pe.1
  let ider2 : Int := match pv.2 with | none => -1 | some _ => boolToZ pe.2
  let ider : Int × Int × Int × Int := (ider0, boolToZ pf.1, ider2, boolToZ pf.2)
  if ¬ strictlyIncB u then ⟨.error msgUInc, [], 0⟩
  else if ¬ strictlyIncB v then ⟨.error msgVInc, [], 0⟩
  else if ¬ (u.length = r.length) then ⟨.error msgRUDim, [], 0⟩
  else if ¬ (v.length = (r.headD []).length) then ⟨.error msgRVDim, [], 0⟩
  else if pc.2 = false ∧ pf.2 = true then ⟨.error msgPoleFlat, [], 0⟩
  else if pc.1 = false ∧ pf.1 = true then ⟨.error msgPoleFlat, [], 0⟩
  else
    let out := regrid_smth_spher iopt ider u v r.flatten pv.1 pv.2 s
    if out.ier ∈ ([0, -1, -2] : List Int) then
      ⟨.ok { fp := out.fp, tckX := out.tu.take out.nu, tckY := out.tv.take out.nv,
             tckC := out.c.take (((out.nu : Int) - 4) * ((out.nv : Int) - 4)).toNat,
             degX := 3, degY := 3 }, [], 1⟩
    else ⟨.error (msgGet spfitMessages out.ier), [], 1⟩

/-- A small benign curve-solver output used to instantiate the external
routines in concrete scenarios: degree 1 on four data points. -/
def benignData : CurfitData :=
  { x := [0, 10, 20, 30], y := [0, 10, 20, 30], w := [1, 1, 1, 1], xb := 0,
    xe := 30, k := 1, s := 1, n := 4, t := [0, 0, 30, 30], c := [0, 30, 0, 0],
    fp := 0, fpint := some [0, 0, 0, 0], nrdata := some [0, 0, 0, 0], ier := 0 }

/-- A constant stand-in for `dfitpack.fpcurfm1`. -/
def constCurfitm1 (d : CurfitData) :
    List Int → List Int → Nat → List Int → Option (List Int) → Int → Int → CurfitData :=
  fun _ _ _ _ _ _ _ => d

/-- Solver output with the malformed-input status 10. -/
def d10 : CurfitData := { benignData with ier := 10 }

/-- Data points of the Schoenberg-Whitney scenario. -/
def x0 : List Int := [0, 10, 20, 30]

/-- Ordinates of the Schoenberg-Whitney scenario. -/
def y0 : List Int := [0, 10, 20, 30]

/-- Interior knots that are strictly increasing but whose span
`(12, 14)` contains no data point. -/
def tint0 : List Int := [12, 14]

/-- The padded knot vector the constructor builds for `tint0` at `k = 1`. -/
def t0 : List Int := [0, 0, 12, 14, 30, 30]

/-- A fitted smoothing-spline object with residual 5, held in a store. -/
def obj0 : SplineObj := mkUnivariateObj { benignData with fp := 5 }

/-- A `fpcurf1` stand-in whose refit converges (`ier = 0`) with residual 7. -/
def f1w : CurfitData → CurfitData := fun d => { d with fp := 7, ier := 0 }

/-- A fixed-knot LSQ spline object (`data[6] == -1`). -/
def objL : SplineObj := mkLsqObj { benignData with s := -1 }

/-- Data for the `_reset_nest` capacity scenario: 8 knots currently stored
(`n = 8`), residual `fp = 1`. -/
def d5 : CurfitData :=
  { benignData with
    n := 8, t := [0, 0, 0, 10, 20, 30, 30, 30],
    c := [0, 10, 20, 30, 0, 0, 0, 0], fp := 1,
    fpint := some [0, 0, 0, 0, 0, 0, 0, 0],
    nrdata := some [0, 0, 0, 0, 0, 0, 0, 0] }

/-- A scattered-surface solver output with status -5 (a rank-deficiency
status below -2). -/
def out5 : SurfitOut :=
  { nx := 8, tx := [], ny := 8, ty := [], c := [], fp := 0, ier := -5 }

/-- A scattered-surface solver output with status 4. -/
def out4 : SurfitOut := { out5 with ier := 4 }

/-- A `surfit_lsq` stand-in returning status -4. -/
def lsqSolverNeg4 : List Int → List Int → Int → LsqOut :=
  fun _ _ _ => { tx := [], ty := [], c := [], fp := 0, ier := -4 }

/-- A grid solver stand-in returning a fixed output. -/
def regridConst (o : SurfitOut) :
    List Int → List Int → List Int → Nat → Nat → Int → SurfitOut :=
  fun _ _ _ _ _ _ => o

/-- A benign grid-solver output (status 0). -/
def benignSurfit : SurfitOut :=
  { nx := 4, tx := [0, 0, 1, 1], ny := 4, ty := [0, 0, 1, 1],
    c := [0, 0, 0, 0], fp := 0, ier := 0 }

/-- Grid abscissae of the regular-grid scenarios. -/
def xg : List Int := [0, 1]

/-- Grid ordinate axis of the regular-grid scenarios. -/
def yg : List Int := [0, 1]

/-- Grid data of the regular-grid scenarios. -/
def zg : List (List Int) := [[0, 0], [0, 0]]

/-- A grid axis that is not strictly ascending. -/
def xbad : List Int := [0, 2, 1]

/-- Co-latitudes of the spherical scenario. -/
def u0 : List Int := [1, 2]

/-- Longitudes of the spherical scenario. -/
def v0 : List Int := [0, 1]

/-- Spherical grid data. -/
def r0 : List (List Int) := [[0, 0], [0, 0]]

/-- A spherical grid solver stand-in returning a fixed output. -/
def spherConst (o : SpherOut) :
    Int × Int × Int → Int × Int × Int × Int →
      List Int → List Int → List Int → Option Int → Option Int → Int → SpherOut :=
  fun _ _ _ _ _ _ _ _ => o

/-- A benign spherical solver output. -/
def benignSpher : SpherOut :=
  { nu := 8, tu := [], nv := 8, tv := [], c := [], fp := 0, ier := 0 }

/-- C1 counterexample: at the malformed-input solver status 10 the curve
controller still constructs the spline object and surfaces the status as an
advisory warning from `_curfit_messages` — the status is not fatal and a
model is produced, contrary to the claim. -/
theorem c1_status10_not_fatal :
    d10.ier = 10 ∧
    isOkB (univariateSplineInit id d10).res = true ∧
    (univariateSplineInit id d10).warns = [msgGet curfitMessages 10] :=
  ⟨rfl, rfl, rfl⟩

/-- C1 (amended): `_reset_class` maps the final solver status to the role:
0 keeps the smoothing class, -1 gives the interpolating class, -2 the
least-squares class; every other status — the malformed-input status 10
included — is surfaced as a single advisory from `_curfit_messages`
(status 1 additionally reclassifies to the least-squares class), with the
evaluation arguments installed in every case; no status is fatal. -/
theorem c1_status_role_map (d : CurfitData) :
    (reset_class (mkUnivariateObj d)).1.cls =
      (if d.ier = -1 then SplineClass.interpolated
       else if d.ier = -2 then SplineClass.lsq
       else if d.ier = 1 then SplineClass.lsq
       else SplineClass.univariate) ∧
    (reset_class (mkUnivariateObj d)).2 =
      (if d.ier = 0 ∨ d.ier = -1 ∨ d.ier = -2 then []
       else [msgGet curfitMessages d.ier]) ∧
    (reset_class (mkUnivariateObj d)).1.evalT = d.t.take d.n ∧
    (reset_class (mkUnivariateObj d)).1.evalC = d.c.take d.n := by
  unfold reset_class mkUnivariateObj set_class
  by_cases h0 : d.ier = 0 <;> by_cases h1 : d.ier = -1 <;>
    by_cases h2 : d.ier = -2 <;> by_cases h3 : d.ier = 1 <;>
    simp_all

/-- C2 counterexample: with `x = [0,10,20,30]`, degree 1 and interior knots
`[12, 14]`, the data-support Schoenberg-Whitney condition fails (the span
`(12, 14)` contains no data point), yet the constructor accepts the knots
and invokes the solver once: the pre-solver check only tests strict
monotonicity of the padded knot window, not data support. -/
theorem c2_sw_support_unchecked :
    specSchoenbergWhitneyB x0 t0 1 = false ∧
    t0 = paddedKnots x0 tint0 none none 1 ∧
    isOkB (lsqUnivariateSplineInit (constCurfitm1 benignData)
      x0 y0 tint0 none none none 1).res = true ∧
    (lsqUnivariateSplineInit (constCurfitm1 benignData)
      x0 y0 tint0 none none none 1).solverCalls = 1 := by
  refine ⟨by decide, by decide, by decide, by decide⟩

/-- C2 (amended): the constructor pads the interior knots with `k+1` copies
of each boundary value, and its pre-solver validation accepts exactly the
paddings whose window `t[k+1..n-k-1]` is strictly increasing: on rejection
it raises the Schoenberg-Whitney `ValueError` with zero solver invocations,
on acceptance the solver is invoked exactly once (data support itself is
not examined before the solver). -/
theorem c2_padding_and_precheck
    (fpcurfm1 : List Int → List Int → Nat → List Int → Option (List Int) → Int → Int → CurfitData)
    (x y tint : List Int) (w : Option (List Int)) (xbO xeO : Option Int) (k : Nat) :
    paddedKnots x tint xbO xeO k =
      List.replicate (k+1) (xbO.getD (x.headD 0)) ++ tint ++
        List.replicate (k+1) (xeO.getD (x.getLastD 0)) ∧
    isOkB (lsqUnivariateSplineInit fpcurfm1 x y tint w xbO xeO k).res =
      swCheckB (paddedKnots x tint xbO xeO k) k ∧
    (lsqUnivariateSplineInit fpcurfm1 x y tint w xbO xeO k).solverCalls =
      (if swCheckB (paddedKnots x tint xbO xeO k) k then 1 else 0) ∧
    (swCheckB (paddedKnots x tint xbO xeO k) k = true ∨
      (lsqUnivariateSplineInit fpcurfm1 x y tint w xbO xeO k).res =
        .error msgSWViolation) := by
  refine ⟨rfl, ?_⟩
  unfold lsqUnivariateSplineInit
  cases hsw : swCheckB (paddedKnots x tint xbO xeO k) k
  · exact ⟨rfl, rfl, Or.inr rfl⟩
  · exact ⟨rfl, rfl, Or.inl rfl⟩

/-- C3 counterexample: a refit through the store mutates the very object
the caller holds — the stored model's residual changes from 5 to 7 after
`set_smoothing_factor`, so the model the caller already held is not left
unchanged. -/
theorem c3_refit_mutates_model :
    obj0.dat.fp = 5 ∧
    (match (refitAt f1w [obj0] 0 2).res with
     | .ok st => (st.getD 0 default).dat.fp
     | .error _ => 0) = 7 :=
  ⟨rfl, rfl⟩

/-- C3 (amended): a refit re-invokes the solver with the prior knot
configuration as a warm start (the solver argument keeps `t`, `c` and `n`
and replaces only the smoothing factor) but does not produce a fresh model:
it overwrites, in place, the store entry the caller holds with the
re-fitted object. -/
theorem c3_refit_warm_start_in_place (fpcurf1 : CurfitData → CurfitData)
    (st : List SplineObj) (i : Nat) (s : Int)
    (hs : (st.getD i default).dat.s ≠ -1)
    (hr : (fpcurf1 (warmStartData (st.getD i default).dat s)).ier ≠ 1) :
    (warmStartData (st.getD i default).dat s).t = (st.getD i default).dat.t ∧
    (warmStartData (st.getD i default).dat s).c = (st.getD i default).dat.c ∧
    (warmStartData (st.getD i default).dat s).n = (st.getD i default).dat.n ∧
    (warmStartData (st.getD i default).dat s).s = s ∧
    (refitAt fpcurf1 st i s).res =
      .ok (st.set i (reset_class
        { st.getD i default with
          dat := fpcurf1 (warmStartData (st.getD i default).dat s) }).1) := by
  refine ⟨rfl, rfl, rfl, rfl, ?_⟩
  simp only [refitAt, set_smoothing_factor]
  rw [if_neg hs, if_neg hr]

/-- C3 witness: the warm-start/in-place theorem instantiated on a concrete
one-object store with a converging solver. -/
theorem c3_refit_warm_start_in_place_witness :
    (refitAt f1w [obj0] 0 2).res =
      .ok (([obj0] : List SplineObj).set 0 (reset_class
        { ([obj0] : List SplineObj).getD 0 default with
          dat := f1w (warmStartData (([obj0] : List SplineObj).getD 0 default).dat 2) }).1) :=
  (c3_refit_warm_start_in_place f1w [obj0] 0 2 (by decide) (by decide)).2.2.2.2

/-- C4: refitting a fixed-knot LSQ spline (`data[6] == -1`) with any new
smoothing factor is a no-op: the object is returned untouched, exactly one
advisory is emitted, and the solver is not called. -/
theorem c4_lsq_refit_noop (fpcurf1 : CurfitData → CurfitData)
    (self : SplineObj) (s : Int) (h : self.dat.s = -1) :
    set_smoothing_factor fpcurf1 self s = ⟨.ok self, [msgLsqRefit], 0⟩ := by
  unfold set_smoothing_factor
  rw [if_pos h]

/-- C4 witness: the no-op refit at a concrete fixed-knot LSQ object. -/
theorem c4_lsq_refit_noop_witness :
    set_smoothing_factor id objL 5 = ⟨.ok objL, [msgLsqRefit], 0⟩ :=
  c4_lsq_refit_noop id objL 5 (by decide)

/-- C5: `_reset_nest` is meant — by its own error message — to refuse a
capacity decrease, but the guard reads `data[10]` (the residual `fp`)
instead of the knot count `data[7]`: with `n = 8` knots stored and
`fp = 1`, requesting `nest = 4` is accepted without error and the
knot/coefficient buffers are shrunk to length 4. -/
theorem c5_nest_decrease_accepted :
    d5.n = 8 ∧ d5.fp = 1 ∧
    isOkB (reset_nest id d5 (some 4)) = true ∧
    (match reset_nest id d5 (some 4) with
     | .ok d => d.t.length
     | .error _ => 0) = 4 := by
  refine ⟨rfl, rfl, by decide, by decide⟩

/-- C6 counterexample: the `_surfit_messages` diagnostic table has 7
entries, not 14, and the scattered smoothing fit does not parameterize the
rank-deficiency entry: at status -5 (outside the success set) it warns with
the generic `ier=-5` fallback instead of a computed-deficiency message. -/
theorem c6_table_and_deficiency :
    surfitMessages.length = 7 ∧
    ¬ ((-5 : Int) ∈ ([0, -1, -2] : List Int)) ∧
    (smoothBivariateInit out5 3 3).warns = [ierDefaultMsg (-5)] :=
  ⟨rfl, by decide, rfl⟩

/-- C6 (amended): every solver status outside the success set {0, -1, -2}
is surfaced as an advisory and never as an exception: the scattered
smoothing fit looks the status up in the 7-entry `_surfit_messages` table
(with a generic `ier=N` fallback), while the explicit-knots LSQ surface fit
substitutes the computed deficiency `(nx-kx-1)*(ny-ky-1) + ier` into the
rank-deficiency entry whenever `ier < -2`. -/
theorem c6_advisory_statuses :
    (∀ (out : SurfitOut) (kx ky : Nat), out.ier ∉ ([0, -1, -2] : List Int) →
      isOkB (smoothBivariateInit out kx ky).res = true ∧
      (smoothBivariateInit out kx ky).warns = [msgGet surfitMessages out.ier]) ∧
    (∀ (surfit_lsq : List Int → List Int → Int → LsqOut) (tx ty : List Int)
      (kx ky : Nat),
      (lsqSurfitResult surfit_lsq (lsqPadded tx kx) (lsqPadded ty ky)).1.ier < -2 →
      isOkB (lsqBivariateInit surfit_lsq tx ty kx ky).res = true ∧
      (lsqBivariateInit surfit_lsq tx ty kx ky).warns =
        [pyFormatI (msgGet surfitMessages (-3))
          (lsqDeficiency tx ty kx ky
            (lsqSurfitResult surfit_lsq (lsqPadded tx kx) (lsqPadded ty ky)).1.ier)]) := by
  constructor
  · intro out kx ky h
    refine ⟨rfl, ?_⟩
    simp only [smoothBivariateInit]
    rw [if_neg h]
  · intro surfit_lsq tx ty kx ky h
    have hmem : (lsqSurfitResult surfit_lsq (lsqPadded tx kx) (lsqPadded ty ky)).1.ier ∉
        ([0, -1, -2] : List Int) := by
      simp only [List.mem_cons, List.not_mem_nil, or_false]
      push_neg
      omega
    refine ⟨rfl, ?_⟩
    simp only [lsqBivariateInit]
    rw [if_neg hmem, if_pos h]

/-- C6 witness: the advisory theorem applied at status 4 for the smoothing
fit and at status -4 (computed deficiency 12) for the explicit-knots fit. -/
theorem c6_advisory_statuses_witness :
    (smoothBivariateInit out4 3 3).warns = [msgGet surfitMessages 4] ∧
    (lsqBivariateInit lsqSolverNeg4 [] [] 3 3).warns =
      [pyFormatI (msgGet surfitMessages (-3)) (lsqDeficiency [] [] 3 3 (-4))] :=
  ⟨(c6_advisory_statuses.1 out4 3 3 (by decide)).2,
   (c6_advisory_statuses.2 lsqSolverNeg4 [] [] 3 3 (by decide)).2⟩

/-- C7: the regular-grid fit is strict: whenever the grid solver reports a
status outside {0, -1, -2} the constructor produces no model (the status is
fatal), whereas the scattered smoothing fit on the same status still
produces a model and only warns. -/
theorem c7_rect_status_fatal
    (regrid_smth : List Int → List Int → List Int → Nat → Nat → Int → SurfitOut)
    (x y : List Int) (z : List (List Int)) (kx ky : Nat) (s : Int)
    (h : (regrid_smth x y z.flatten kx ky s).ier ∉ ([0, -1, -2] : List Int)) :
    isOkB (rectBivariateInit regrid_smth x y z kx ky s).res = false ∧
    isOkB (smoothBivariateInit (regrid_smth x y z.flatten kx ky s) kx ky).res = true := by
  refine ⟨?_, rfl⟩
  unfold rectBivariateInit
  split_ifs <;> simp_all [isOkB]

/-- C7 witness: the strict grid fit at a concrete solver status 1 on a
valid 2 × 2 grid, contrasted with the smoothing fit on the same status. -/
theorem c7_rect_status_fatal_witness :
    isOkB (rectBivariateInit (regridConst { benignSurfit with ier := 1 })
      xg yg zg 3 3 0).res = false ∧
    isOkB (smoothBivariateInit (regridConst { benignSurfit with ier := 1 }
      xg yg zg.flatten 3 3 0) 3 3).res = true :=
  c7_rect_status_fatal (regridConst { benignSurfit with ier := 1 })
    xg yg zg 3 3 0 (by decide)

/-- C8: any violation of the grid preconditions — an axis not strictly
increasing, first/last sample not the array minimum/maximum, or a `z`
dimension differing from the axis length — makes `RectBivariateSpline`
raise before the solver is invoked: the result is an error and the solver
call count is zero. -/
theorem c8_rect_validation
    (regrid_smth : List Int → List Int → List Int → Nat → Nat → Int → SurfitOut)
    (x y : List Int) (z : List (List Int)) (kx ky : Nat) (s : Int)
    (h : strictlyIncB x = false ∨ strictlyIncB y = false ∨
         minMaxOkB x = false ∨ minMaxOkB y = false ∨
         x.length ≠ z.length ∨ y.length ≠ (z.headD []).length) :
    isOkB (rectBivariateInit regrid_smth x y z kx ky s).res = false ∧
    (rectBivariateInit regrid_smth x y z kx ky s).solverCalls = 0 := by
  unfold rectBivariateInit
  split_ifs <;> simp_all [isOkB]

/-- C8 witness: the validation theorem at the non-ascending axis
`x = [0, 2, 1]`. -/
theorem c8_rect_validation_witness :
    isOkB (rectBivariateInit (regridConst benignSurfit) xbad yg zg 3 3 0).res = false ∧
    (rectBivariateInit (regridConst benignSurfit) xbad yg zg 3 3 0).solverCalls = 0 :=
  c8_rect_validation (regridConst benignSurfit) xbad yg zg 3 3 0 (by decide)

/-- C9: evaluating any fitted curve model at an empty query sequence, for
any derivative order, returns the empty sequence immediately with zero
evaluator calls. -/
theorem c9_empty_eval
    (splev : (List Int × List Int × Nat) → List Int → Nat → List Int)
    (self : SplineObj) (nu : Nat) :
    splineCall splev self [] nu = ([], 0) := rfl

/-- C10: whenever, after broadcasting, `pole_flat` is true while
`pole_continuity` is false at the same pole, the spherical-grid constructor
raises before any solver call: the result is an error and the solver call
count is zero. -/
theorem c10_pole_consistency
    (solver : Int × Int × Int → Int × Int × Int × Int →
      List Int → List Int → List Int → Option Int → Option Int → Int → SpherOut)
    (u v : List Int) (r : List (List Int)) (s : Int)
    (pc : BoolOrPair) (pv : PoleValues) (pe pf : BoolOrPair)
    (h : ((broadcastBool pf).1 = true ∧ (broadcastBool pc).1 = false) ∨
         ((broadcastBool pf).2 = true ∧ (broadcastBool pc).2 = false)) :
    isOkB (rectSphereInit solver u v r s pc pv pe pf).res = false ∧
    (rectSphereInit solver u v r s pc pv pe pf).solverCalls = 0 := by
  simp only [rectSphereInit]
  rcases h with ⟨h1, h2⟩ | ⟨h1, h2⟩ <;> split_ifs <;> simp_all [isOkB]

/-- C10 witness: the pole-consistency theorem at
`pole_flat = True, pole_continuity = False` (single values broadcast to
both poles) on a concrete 2 × 2 spherical grid. -/
theorem c10_pole_consistency_witness :
    isOkB (rectSphereInit (spherConst benignSpher) u0 v0 r0 0
      (BoolOrPair.single false) PoleValues.noneV (BoolOrPair.single false)
      (BoolOrPair.single true)).res = false ∧
    (rectSphereInit (spherConst benignSpher) u0 v0 r0 0
      (BoolOrPair.single false) PoleValues.noneV (BoolOrPair.single false)
      (BoolOrPair.single true)).solverCalls = 0 :=
  c10_pole_consistency (spherConst benignSpher) u0 v0 r0 0
    (BoolOrPair.single false) PoleValues.noneV (BoolOrPair.single false)
    (BoolOrPair.single true) (by decide)

end Fitpack2
